import Mathlib

/-!
Shallow embedding of the e-commerce backend (`main.py`, `schemas.py`).

Documents are modelled as typed records; the document store (`db` of the
missing `database.py`) is a record of lists, one per collection, plus a
counter `nextId` from which generated object identifiers and creation
timestamps are drawn.  Monetary amounts and ratings are rationals (`ℚ`);
Python's `round(x, 2)` is modelled by `round2`.  Handlers are pure
functions from a `DB` and a request to a response (an `Except Err _`)
together with the resulting `DB`; a Python `raise HTTPException` before
any write corresponds to returning the error with the `DB` unchanged.
-/

/-- HTTP error: status code and detail string (`HTTPException`). -/
structure Err where
  status : Nat
  detail : String
deriving DecidableEq, Repr

/-- Hexadecimal character test (as accepted by `ObjectId.is_valid`). -/
def isHexChar (c : Char) : Bool :=
  c.isDigit || ('a' ≤ c && c ≤ 'f') || ('A' ≤ c && c ≤ 'F')

/-- `bson.ObjectId.is_valid` on a string: exactly 24 hex characters. -/
def isValidObjectId (s : String) : Bool :=
  s.length == 24 && s.data.all isHexChar

/-- The `ObjectId(s)` constructor normalises the hex string; object ids are
represented by their canonical lowercase 24-hex rendering, so construction
is lowercasing. -/
def objectIdOf (s : String) : String :=
  String.mk (s.data.map Char.toLower)

/-- Canonical lowercase 24-hex rendering of a generated identifier. -/
def hex24 (n : Nat) : String :=
  let ds := Nat.toDigits 16 n
  String.mk (List.replicate (24 - ds.length) '0' ++ ds)

/-- Python `round(q, 2)`: round to 2 decimal places. -/
def round2 (q : ℚ) : ℚ :=
  (round (q * 100) : ℤ) / 100

/-- A stored `product` document (`schemas.Product` plus the
storage-generated `_id`, the creation stamp added at insertion, and an
optional literal `id` field that the `/products/{id}` fallback lookup can
match). -/
structure ProductDoc where
  oid : String
  title : String
  description : Option String := none
  price : ℚ
  category : String
  image_url : Option String := none
  rating : ℚ := 4.2
  in_stock : Bool := true
  idField : Option String := none
  created_at : Nat := 0
deriving DecidableEq, Repr

/-- A cart line as stored by `add_to_cart`
(`{"product_id": ..., "quantity": ...}`). -/
structure CartItemDoc where
  product_id : String
  quantity : Int
deriving DecidableEq, Repr

/-- A stored `cart` document.  `oid = none` models a dict that carries no
`_id` key (the synthetic empty cart, or the in-memory cart built by
`add_to_cart` before its first upsert). -/
structure CartDoc where
  oid : Option String := none
  session_id : String
  items : List CartItemDoc
deriving DecidableEq, Repr

/-- An order line built at checkout
(`{"product_id": str(prod["_id"]), "quantity": qty, "price": price}`). -/
structure OrderItemDoc where
  product_id : String
  quantity : Int
  price : ℚ
deriving DecidableEq, Repr

/-- A stored `order` document. -/
structure OrderDoc where
  oid : String
  session_id : String
  items : List OrderItemDoc
  total : ℚ
  status : String
  created_at : Nat := 0
deriving DecidableEq, Repr

/-- A stored `review` document (`CreateReview` payload plus `_id` and the
creation stamp). -/
structure ReviewDoc where
  oid : String
  product_id : String
  user_name : String
  rating : ℚ
  comment : Option String := none
  created_at : Nat := 0
deriving DecidableEq, Repr

/-- The document store: one list per collection, in insertion order, plus
the counter from which generated identifiers and creation stamps are
drawn.

Modelled from the spec: `database.py` (the `db` handle and
`create_document`) is not part of the source excerpt; per the spec,
"Create document(collection, record) — ... inserts it, returns the
generated identifier" appends one document to the named collection, each
document gets "a server-generated unique identifier" and reviews and
orders carry "an implicit creation timestamp used for ordering".  Both
the identifier (`hex24 nextId`) and the timestamp (`nextId`) are drawn
from `nextId`, which increases with every insertion. -/
structure DB where
  products : List ProductDoc := []
  carts : List CartDoc := []
  orders : List OrderDoc := []
  reviews : List ReviewDoc := []
  nextId : Nat := 0
deriving DecidableEq, Repr

/-- The input fields of `schemas.Product` (what `seed_products` passes to
`create_document`). -/
structure ProductInput where
  title : String
  description : Option String := none
  price : ℚ
  category : String
  image_url : Option String := none
  rating : ℚ := 4.2
  in_stock : Bool := true
deriving DecidableEq, Repr

/-- `create_document("product", p)`: append one product document with a
generated identifier and creation stamp. -/
def insertProduct (db : DB) (p : ProductInput) : DB :=
  { db with
    products := db.products ++
      [{ oid := hex24 db.nextId, title := p.title,
         description := p.description, price := p.price,
         category := p.category, image_url := p.image_url,
         rating := p.rating, in_stock := p.in_stock,
         created_at := db.nextId }],
    nextId := db.nextId + 1 }

/-- The literal demo catalog of `seed_products`. -/
def demoProducts : List ProductInput :=
  [ { title := "Echo Dot (5th Gen)", description := some "Smart speaker with Alexa",
      price := 49.99, category := "Electronics",
      image_url := some "https://images.unsplash.com/photo-1585386959984-a4155223168f",
      rating := 4.4 },
    { title := "Noise Cancelling Headphones", description := some "Wireless over-ear",
      price := 199.0, category := "Electronics",
      image_url := some "https://images.unsplash.com/photo-1518443078004-7d3f3393815a",
      rating := 4.5 },
    { title := "Stainless Steel Bottle", description := some "Insulated, 1L",
      price := 19.99, category := "Home & Kitchen",
      image_url := some "https://images.unsplash.com/photo-1602143407151-7111542de8f5",
      rating := 4.2 },
    { title := "Running Shoes", description := some "Lightweight trainers",
      price := 89.0, category := "Fashion",
      image_url := some "https://images.unsplash.com/photo-1542291026-7eec264c27ff",
      rating := 4.3 },
    { title := "Office Chair", description := some "Ergonomic mesh",
      price := 159.0, category := "Furniture",
      image_url := some "https://images.unsplash.com/photo-1582582494700-33a818b1d3c9",
      rating := 4.1 } ]

/-- Response body of `POST /seed`. -/
structure SeedResp where
  seeded : Bool
  count : Nat
deriving DecidableEq, Repr

/-- `seed_products` (`main.py:36-52`): if the product collection is empty
insert the five demo products; the response is always
`{"seeded": True, "count": <current count>}`. -/
def seed_products (db : DB) : SeedResp × DB :=
  let existing := db.products.length
  let db' := if existing == 0 then demoProducts.foldl insertProduct db else db
  ({ seeded := true, count := db'.products.length }, db')

/-- `max(1, min(10, n))`, the quantity clamp of `add_to_cart`. -/
def clampQty (n : Int) : Int :=
  max 1 (min 10 n)

/-- The add-or-update loop of `add_to_cart` (`main.py:143-150`): the first
line matching `product_id` has the incoming quantity merged in and
clamped; when no line matches, a new clamped line is appended. -/
def addItem (items : List CartItemDoc) (pid : String) (q : Int) : List CartItemDoc :=
  match items with
  | [] => [⟨pid, clampQty q⟩]
  | it :: rest =>
    if it.product_id == pid then ⟨pid, clampQty (it.quantity + q)⟩ :: rest
    else it :: addItem rest pid q

/-- `update_one({"session_id": sid}, {"$set": cart}, upsert=True)` on an
existing cart: replace the fields of the first matching document. -/
def replaceFirstCart (l : List CartDoc) (sid : String) (c : CartDoc) : List CartDoc :=
  match l with
  | [] => []
  | x :: xs => if x.session_id == sid then c :: xs else x :: replaceFirstCart xs sid c

/-- `find_one({"_id": ObjectId(pid)})` on the product collection (callers
guard with `ObjectId.is_valid`). -/
def findProductByOid (db : DB) (pid : String) : Option ProductDoc :=
  db.products.find? (fun p => p.oid == objectIdOf pid)

/-- Request body of `POST /cart/add`. -/
structure AddToCartRequest where
  product_id : String
  quantity : Int := 1
  session_id : String
deriving DecidableEq, Repr

/-- Response body of `POST /cart/add`: `{"ok": True, "cart": cart}` where
`cart` is the in-memory dict (so a fresh cart carries no `_id`). -/
structure AddResp where
  ok : Bool
  cart : CartDoc
deriving DecidableEq, Repr

/-- `add_to_cart` (`main.py:128-156`): 404 unless the product id is a
valid object id resolving to a product; otherwise load or initialise the
session's cart, merge the line with clamping, and upsert the cart keyed
by `session_id`. -/
def add_to_cart (db : DB) (payload : AddToCartRequest) : Except Err AddResp × DB :=
  let prod :=
    if isValidObjectId payload.product_id then findProductByOid db payload.product_id
    else none
  match prod with
  | none => (.error ⟨404, "Product not found"⟩, db)
  | some _ =>
    match db.carts.find? (fun c => c.session_id == payload.session_id) with
    | some cart0 =>
      let merged := { cart0 with items := addItem cart0.items payload.product_id payload.quantity }
      (.ok { ok := true, cart := merged },
       { db with carts := replaceFirstCart db.carts payload.session_id merged })
    | none =>
      let merged : CartDoc :=
        { oid := none, session_id := payload.session_id,
          items := addItem [] payload.product_id payload.quantity }
      (.ok { ok := true, cart := merged },
       { db with
         carts := db.carts ++ [{ merged with oid := some (hex24 db.nextId) }],
         nextId := db.nextId + 1 })

/-- `get_cart` (`main.py:158-164`): the stored cart for the session, or
the synthetic empty cart `{"session_id": sid, "items": []}`. -/
def get_cart (db : DB) (sid : String) : CartDoc :=
  (db.carts.find? (fun c => c.session_id == sid)).getD
    { oid := none, session_id := sid, items := [] }

/-- The per-line resolution of checkout (`main.py:178`):
`find_one({"_id": ObjectId(pid)}) if ObjectId.is_valid(pid) else None`. -/
def resolveProduct (db : DB) (pid : String) : Option ProductDoc :=
  if isValidObjectId pid then findProductByOid db pid else none

/-- The order line a cart line contributes at checkout, `none` when its
product no longer resolves. -/
def orderItemOf (db : DB) (it : CartItemDoc) : Option OrderItemDoc :=
  (resolveProduct db it.product_id).map
    (fun p => { product_id := p.oid, quantity := it.quantity, price := p.price })

/-- One iteration of the checkout loop (`main.py:177-184`): skip the line
when its product does not resolve, else extend the running item list and
add `price * qty` to the running total. -/
def checkoutStep (db : DB) (acc : List OrderItemDoc × ℚ) (it : CartItemDoc) :
    List OrderItemDoc × ℚ :=
  match orderItemOf db it with
  | none => acc
  | some oi => (acc.1 ++ [oi], acc.2 + oi.price * oi.quantity)

/-- The accumulation loop of checkout (`main.py:175-184`): running list of
order items and running total, built left to right from `items = []`,
`total = 0.0`. -/
def checkoutLoop (db : DB) (lines : List CartItemDoc) : List OrderItemDoc × ℚ :=
  lines.foldl (checkoutStep db) ([], 0)

/-- `delete_one({"session_id": sid})` on the cart collection: remove the
first matching document. -/
def deleteOneCart (l : List CartDoc) (sid : String) : List CartDoc :=
  l.eraseP (fun c => c.session_id == sid)

/-- `checkout` (`main.py:169-194`): 400 "Cart is empty" when the session
has no cart or an item-less one; resolve each line, silently dropping
lines whose product does not resolve; 400 "No valid items in cart" when
nothing remains; otherwise create one order with the rounded total and
status "placed", delete the session's cart, and return the total. -/
def checkout (db : DB) (sid : String) : Except Err ℚ × DB :=
  match db.carts.find? (fun c => c.session_id == sid) with
  | none => (.error ⟨400, "Cart is empty"⟩, db)
  | some cart =>
    if cart.items.isEmpty then (.error ⟨400, "Cart is empty"⟩, db)
    else
      let r := checkoutLoop db cart.items
      if r.1.isEmpty then (.error ⟨400, "No valid items in cart"⟩, db)
      else
        let order : OrderDoc :=
          { oid := hex24 db.nextId, session_id := sid, items := r.1,
            total := round2 r.2, status := "placed", created_at := db.nextId }
        (.ok (round2 r.2),
         { db with
           orders := db.orders ++ [order],
           carts := deleteOneCart db.carts sid,
           nextId := db.nextId + 1 })

/-- Response body of `GET /products/{id}`: the product after `to_str_id`
(so `_id` has become the string `id`), with `rating` possibly overwritten
and `reviews_count` attached by the read-time aggregation. -/
structure ProductResp where
  id : String
  title : String
  description : Option String
  price : ℚ
  category : String
  image_url : Option String
  rating : ℚ
  in_stock : Bool
  reviews_count : Option Nat
deriving DecidableEq, Repr

/-- `get_product` (`main.py:101-121`): look up by object id when the path
parameter is a valid one, else by a literal `id` field; 404 when no
match; on success overwrite `rating` with the rounded mean of the
product's reviews and attach `reviews_count` when any reviews exist.  The
handler performs no writes, so it returns the store unchanged. -/
def get_product (db : DB) (pid : String) : Except Err ProductResp × DB :=
  let doc? :=
    if isValidObjectId pid then findProductByOid db pid
    else db.products.find? (fun p => p.idField == some pid)
  match doc? with
  | none => (.error ⟨404, "Product not found"⟩, db)
  | some doc =>
    let revs := db.reviews.filter (fun r => r.product_id == doc.oid)
    let count := revs.length
    let base : ProductResp :=
      { id := doc.oid, title := doc.title, description := doc.description,
        price := doc.price, category := doc.category,
        image_url := doc.image_url, rating := doc.rating,
        in_stock := doc.in_stock, reviews_count := none }
    if count ≠ 0 then
      (.ok { base with
              rating := round2 ((revs.map (fun r => r.rating)).sum / count),
              reviews_count := some count }, db)
    else (.ok base, db)

/-- Request body of `POST /reviews`. -/
structure CreateReview where
  product_id : String
  user_name : String
  rating : ℚ
  comment : Option String := none
deriving DecidableEq, Repr

/-- `post_review` (`main.py:211-223`): 404 unless the product id is a
valid object id resolving to a product; otherwise insert the review
document (with generated identifier and creation stamp) and acknowledge. -/
def post_review (db : DB) (payload : CreateReview) : Except Err Unit × DB :=
  if isValidObjectId payload.product_id ∧ (findProductByOid db payload.product_id).isSome then
    (.ok (),
     { db with
       reviews := db.reviews ++
         [{ oid := hex24 db.nextId, product_id := payload.product_id,
            user_name := payload.user_name, rating := payload.rating,
            comment := payload.comment, created_at := db.nextId }],
       nextId := db.nextId + 1 })
  else (.error ⟨404, "Product not found"⟩, db)

/-- "Most recent first": review `a` sorts before review `b` when its
creation stamp is at least `b`'s (`.sort("created_at", -1)`). -/
def revDesc (a b : ReviewDoc) : Prop :=
  b.created_at ≤ a.created_at

instance : DecidableRel revDesc := fun _ _ => inferInstanceAs (Decidable (_ ≤ _))

instance : IsTotal ReviewDoc revDesc := ⟨fun a b => le_total b.created_at a.created_at⟩

instance : IsTrans ReviewDoc revDesc := ⟨fun _ _ _ h h' => le_trans h' h⟩

/-- A review as returned by `GET /reviews`: the stored document after
`to_str_id`, i.e. with `_id` renamed to the string field `id`. -/
structure ReviewOut where
  id : String
  product_id : String
  user_name : String
  rating : ℚ
  comment : Option String
  created_at : Nat
deriving DecidableEq, Repr

/-- `to_str_id` on a review document. -/
def renderReview (r : ReviewDoc) : ReviewOut :=
  { id := r.oid, product_id := r.product_id, user_name := r.user_name,
    rating := r.rating, comment := r.comment, created_at := r.created_at }

/-- `get_reviews` (`main.py:203-209`): all reviews for the product,
sorted by creation stamp descending, each passed through `to_str_id`. -/
def get_reviews (db : DB) (pid : String) : List ReviewOut :=
  (List.insertionSort revDesc (db.reviews.filter (fun r => r.product_id == pid))).map
    renderReview

/-- "Most recent first" on orders (`.sort("created_at", -1)`). -/
def ordDesc (a b : OrderDoc) : Prop :=
  b.created_at ≤ a.created_at

instance : DecidableRel ordDesc := fun _ _ => inferInstanceAs (Decidable (_ ≤ _))

instance : IsTotal OrderDoc ordDesc := ⟨fun a b => le_total b.created_at a.created_at⟩

instance : IsTrans OrderDoc ordDesc := ⟨fun _ _ _ h h' => le_trans h' h⟩

/-- A field value of a JSON-ish response document, for the handlers whose
identifier handling is stated at the level of raw keys. -/
inductive Val where
  | oidV : String → Val
  | strV : String → Val
  | itemsV : List CartItemDoc → Val
  | orderItemsV : List OrderItemDoc → Val
  | ratV : ℚ → Val
  | natV : Nat → Val
deriving DecidableEq, Repr

/-- A response document: association list from field name to value. -/
abbrev Doc := List (String × Val)

/-- Python truthiness of a field value (`if d.get("_id"):`). -/
def valTruthy : Val → Bool
  | .oidV s => !s.isEmpty
  | .strV s => !s.isEmpty
  | .itemsV l => !l.isEmpty
  | .orderItemsV l => !l.isEmpty
  | .ratV q => decide (q ≠ 0)
  | .natV n => decide (n ≠ 0)

/-- `str(v)` as applied by `to_str_id` (only identifier-like values reach
it in this code base). -/
def valToStr : Val → String
  | .oidV s => s
  | .strV s => s
  | .itemsV _ => ""
  | .orderItemsV _ => ""
  | .ratV _ => ""
  | .natV _ => ""

/-- `to_str_id` (`main.py:27-33`): on a non-empty document with a truthy
`_id`, remove `_id` and bind the key `id` to its string rendering;
otherwise return the document unchanged. -/
def to_str_id (doc : Doc) : Doc :=
  if doc.isEmpty then doc
  else
    match doc.lookup "_id" with
    | some v =>
      if valTruthy v then
        (doc.filter (fun kv => kv.1 ≠ "_id" ∧ kv.1 ≠ "id")) ++ [("id", Val.strV (valToStr v))]
      else doc
    | none => doc

/-- The raw document a stored (or synthetic) cart serialises to: `_id`
present exactly when storage assigned one, never an `id` field. -/
def renderCart (c : CartDoc) : Doc :=
  (match c.oid with
   | some i => [("_id", Val.oidV i)]
   | none => []) ++
  [("session_id", Val.strV c.session_id), ("items", Val.itemsV c.items)]

/-- `GET /cart` at the document level: `get_cart` returns the found or
synthetic cart dict as is — no `to_str_id` is applied. -/
def get_cart_doc (db : DB) (sid : String) : Doc :=
  renderCart (get_cart db sid)

/-- The raw document a stored order serialises to. -/
def renderOrder (o : OrderDoc) : Doc :=
  [("_id", Val.oidV o.oid), ("session_id", Val.strV o.session_id),
   ("items", Val.orderItemsV o.items), ("total", Val.ratV o.total),
   ("status", Val.strV o.status), ("created_at", Val.natV o.created_at)]

/-- `get_orders` (`main.py:226-232`) at the document level: the session's
orders, sorted by creation stamp descending, each passed through
`to_str_id`. -/
def get_orders_docs (db : DB) (sid : String) : List Doc :=
  (List.insertionSort ordDesc (db.orders.filter (fun o => o.session_id == sid))).map
    (fun o => to_str_id (renderOrder o))

/-- A valid 24-hex object identifier used in concrete instances. -/
def exOid : String := "aaaaaaaaaaaaaaaaaaaaaaaa"

/-- A second valid object identifier, matching no stored product. -/
def exOidMissing : String := "bbbbbbbbbbbbbbbbbbbbbbbb"

/-- A concrete stored product. -/
def exProduct : ProductDoc :=
  { oid := exOid, title := "Tea Pot", price := 10, category := "Home & Kitchen",
    rating := 4 }

/-- Store holding just `exProduct`. -/
def dbOneProduct : DB := { products := [exProduct], nextId := 3 }

/-- A stored cart for session "s": one line of quantity 3 on `exProduct`
plus one stale line referencing no stored product. -/
def exCart : CartDoc :=
  { oid := some "cccccccccccccccccccccccc", session_id := "s",
    items := [⟨exOid, 3⟩, ⟨exOidMissing, 2⟩] }

/-- Store holding `exProduct` and `exCart`. -/
def dbCart : DB := { products := [exProduct], carts := [exCart], nextId := 3 }

/-- Store holding `exCart` but no products at all, so every cart line is
stale. -/
def dbStaleCart : DB := { products := [], carts := [exCart], nextId := 3 }

/-- A concrete stored order for session "s". -/
def exOrder : OrderDoc :=
  { oid := "dddddddddddddddddddddddd", session_id := "s", items := [],
    total := 30, status := "placed", created_at := 2 }

/-- Store holding just `exOrder`. -/
def dbOrder : DB := { orders := [exOrder], nextId := 3 }

/-- Store holding `exProduct` and two reviews for it. -/
def dbReviews : DB :=
  { products := [exProduct],
    reviews := [{ oid := hex24 1, product_id := exOid, user_name := "a",
                  rating := 5, created_at := 1 },
                { oid := hex24 2, product_id := exOid, user_name := "b",
                  rating := 4, created_at := 2 }],
    nextId := 3 }

/-- The empty store. -/
def dbEmpty : DB := {}

theorem clampQty_bounds (n : Int) : 1 ≤ clampQty n ∧ clampQty n ≤ 10 := by
  unfold clampQty
  omega

theorem addItem_bounds (items : List CartItemDoc) (pid : String) (q : Int)
    (h : ∀ it ∈ items, 1 ≤ it.quantity ∧ it.quantity ≤ 10) :
    ∀ it ∈ addItem items pid q, 1 ≤ it.quantity ∧ it.quantity ≤ 10 := by
  induction items with
  | nil =>
    intro it hit
    simp only [addItem, List.mem_singleton] at hit
    subst hit
    exact clampQty_bounds q
  | cons x xs ih =>
    intro it hit
    by_cases hx : x.product_id == pid
    · simp only [addItem, hx, if_pos] at hit
      rcases List.mem_cons.mp hit with h1 | h2
      · subst h1; exact clampQty_bounds _
      · exact h it (List.mem_cons_of_mem _ h2)
    · simp only [addItem, hx, if_neg, Bool.false_eq_true, not_false_iff] at hit
      rcases List.mem_cons.mp hit with h1 | h2
      · subst h1; exact h it (List.mem_cons_self _ _)
      · exact ih (fun a ha => h a (List.mem_cons_of_mem _ ha)) it h2

theorem addItem_of_not_present (items : List CartItemDoc) (pid : String) (q : Int)
    (h : ∀ it ∈ items, it.product_id ≠ pid) :
    addItem items pid q = items ++ [⟨pid, clampQty q⟩] := by
  induction items with
  | nil => rfl
  | cons x xs ih =>
    have hx : (x.product_id == pid) = false := by
      simpa using h x (List.mem_cons_self _ _)
    simp only [addItem, hx, Bool.false_eq_true, if_neg, not_false_iff, List.cons_append,
      List.cons.injEq, true_and]
    exact ih (fun a ha => h a (List.mem_cons_of_mem _ ha))

theorem addItem_merge (l1 l2 : List CartItemDoc) (pid : String) (q0 q : Int)
    (h : ∀ it ∈ l1, it.product_id ≠ pid) :
    addItem (l1 ++ ⟨pid, q0⟩ :: l2) pid q = l1 ++ ⟨pid, clampQty (q0 + q)⟩ :: l2 := by
  induction l1 with
  | nil => simp [addItem]
  | cons x xs ih =>
    have hx : (x.product_id == pid) = false := by
      simpa using h x (List.mem_cons_self _ _)
    simp only [List.cons_append, addItem, hx, Bool.false_eq_true, if_neg, not_false_iff,
      List.cons.injEq, true_and]
    exact ih (fun a ha => h a (List.mem_cons_of_mem _ ha))

theorem checkoutLoop_foldl (db : DB) (lines : List CartItemDoc) :
    ∀ acc : List OrderItemDoc × ℚ,
      lines.foldl (checkoutStep db) acc =
        (acc.1 ++ lines.filterMap (orderItemOf db),
         acc.2 + ((lines.filterMap (orderItemOf db)).map
           (fun i => i.price * (i.quantity : ℚ))).sum) := by
  induction lines with
  | nil => intro acc; simp
  | cons it rest ih =>
    intro acc
    rw [List.foldl_cons, List.filterMap_cons]
    cases h : orderItemOf db it with
    | none =>
      rw [ih]
      simp [checkoutStep, h]
    | some oi =>
      rw [ih]
      simp only [checkoutStep, h, List.map_cons, List.sum_cons, List.append_assoc,
        List.singleton_append, Prod.mk.injEq]
      refine ⟨trivial, ?_⟩
      ring

theorem checkoutLoop_eq (db : DB) (lines : List CartItemDoc) :
    checkoutLoop db lines =
      (lines.filterMap (orderItemOf db),
       ((lines.filterMap (orderItemOf db)).map (fun i => i.price * (i.quantity : ℚ))).sum) := by
  rw [checkoutLoop, checkoutLoop_foldl]
  simp

theorem find?_of_filter_eq_singleton {α : Type} {l : List α} {p : α → Bool} {c : α}
    (h : l.filter p = [c]) : l.find? p = some c := by
  induction l with
  | nil => simp at h
  | cons x xs ih =>
    by_cases hx : p x
    · rw [List.filter_cons_of_pos hx] at h
      rw [List.find?_cons_of_pos _ hx]
      exact congrArg some (List.cons.inj h).1
    · rw [List.filter_cons_of_neg hx] at h
      rw [List.find?_cons_of_neg _ hx]
      exact ih h

theorem find?_eraseP_of_filter_eq_singleton {α : Type} {l : List α} {p : α → Bool} {c : α}
    (h : l.filter p = [c]) : (l.eraseP p).find? p = none := by
  induction l with
  | nil => simp at h
  | cons x xs ih =>
    by_cases hx : p x
    · rw [List.filter_cons_of_pos hx] at h
      rw [List.eraseP_cons_of_pos hx]
      rw [List.find?_eq_none]
      intro a ha
      have : xs.filter p = [] := (List.cons.inj h).2
      have := List.filter_eq_nil_iff.mp this a ha
      simpa using this
    · rw [List.filter_cons_of_neg hx] at h
      rw [List.eraseP_cons_of_neg hx]
      rw [List.find?_cons_of_neg _ hx]
      exact ih h

theorem find?_replaceFirstCart (l : List CartDoc) (sid : String) (c : CartDoc)
    (hc : c.session_id = sid)
    (hl : (l.find? (fun x => x.session_id == sid)).isSome) :
    (replaceFirstCart l sid c).find? (fun x => x.session_id == sid) = some c := by
  induction l with
  | nil => simp at hl
  | cons x xs ih =>
    by_cases hx : (x.session_id == sid) = true
    · rw [replaceFirstCart, if_pos hx]
      exact List.find?_cons_of_pos _ (by simpa using hc)
    · rw [replaceFirstCart, if_neg (by simpa using hx)]
      rw [List.find?_cons_of_neg _ (by simpa using hx)]
      rw [List.find?_cons_of_neg _ (by simpa using hx)] at hl
      exact ih hl

theorem find?_append_of_none {α : Type} {l : List α} {p : α → Bool} (l' : List α)
    (h : l.find? p = none) : (l ++ l').find? p = l'.find? p := by
  induction l with
  | nil => simp
  | cons x xs ih =>
    rw [List.find?_cons] at h
    rcases hx : p x with _ | _
    · rw [List.cons_append, List.find?_cons_of_neg _ (by simp [hx])]
      rw [hx] at h
      exact ih h
    · rw [hx] at h; simp at h

theorem foldl_insertProduct_length (l : List ProductInput) :
    ∀ db : DB, ((l.foldl insertProduct db).products).length = db.products.length + l.length := by
  induction l with
  | nil => intro db; simp
  | cons p rest ih =>
    intro db
    rw [List.foldl_cons, ih]
    simp [insertProduct]
    omega

theorem seed_noop (db : DB) (h : db.products ≠ []) :
    seed_products db = ({ seeded := true, count := db.products.length }, db) := by
  have hl : (db.products.length == 0) = false := by
    simpa using fun hl => h (List.length_eq_zero.mp hl)
  simp [seed_products, hl]

/-- C6: seeding is idempotent — a non-empty product collection makes seed a
no-op; from an empty collection the first call brings the count to exactly
5 and a second call changes nothing, reporting count 5. -/
theorem C6_seed_idempotent (db : DB) :
    (db.products ≠ [] → seed_products db = ({ seeded := true, count := db.products.length }, db)) ∧
    (db.products = [] →
      (seed_products db).2.products.length = 5 ∧
      seed_products (seed_products db).2 =
        ({ seeded := true, count := 5 }, (seed_products db).2)) := by
  constructor
  · exact seed_noop db
  · intro h
    have h5 : (seed_products db).2.products.length = 5 := by
      have hl : (db.products.length == 0) = true := by simp [h]
      simp only [seed_products, hl, if_pos]
      rw [foldl_insertProduct_length, h]
      rfl
    refine ⟨h5, ?_⟩
    have hne : (seed_products db).2.products ≠ [] := by
      intro hnil
      rw [hnil] at h5
      simp at h5
    rw [seed_noop _ hne, h5]

/-- C6 witness: from the empty store, the first seed call yields 5 products
and the second is a no-op reporting count 5. -/
theorem C6_seed_idempotent_witness :
    (seed_products dbEmpty).2.products.length = 5 ∧
    seed_products (seed_products dbEmpty).2 =
      ({ seeded := true, count := 5 }, (seed_products dbEmpty).2) :=
  (C6_seed_idempotent dbEmpty).2 rfl

/-- C5 counterexample: on a store whose product collection is non-empty the
seed call inserts nothing, yet the response still reports `seeded = true`
— refuting "the seeded boolean is ... false when the collection was
non-empty and the call was a no-op". -/
theorem C5_seeded_flag_counterexample :
    dbOneProduct.products ≠ [] ∧
    (seed_products dbOneProduct).2 = dbOneProduct ∧
    (seed_products dbOneProduct).1.seeded = true := by
  refine ⟨by simp [dbOneProduct], rfl, rfl⟩

/-- C5 amended: the seed response always reports `seeded = true`
(regardless of whether seeding occurred); the count field equals the
resulting total product count; the call inserts the demo products exactly
when the collection was empty (bringing the count to 5) and is a no-op
otherwise. -/
theorem C5_seed_response (db : DB) :
    (seed_products db).1.seeded = true ∧
    (seed_products db).1.count = (seed_products db).2.products.length ∧
    (db.products ≠ [] → (seed_products db).2 = db) ∧
    (db.products = [] → (seed_products db).2.products.length = 5) := by
  refine ⟨rfl, rfl, ?_, ?_⟩
  · intro h
    rw [seed_noop db h]
  · intro h
    exact ((C6_seed_idempotent db).2 h).1

/-- C5 witness: the no-op branch at a non-empty store and the inserting
branch at the empty store. -/
theorem C5_seed_response_witness :
    (seed_products dbOneProduct).2 = dbOneProduct ∧
    (seed_products dbEmpty).2.products.length = 5 :=
  ⟨(C5_seed_response dbOneProduct).2.2.1 (by simp [dbOneProduct]),
   (C5_seed_response dbEmpty).2.2.2 rfl⟩

/-- C3: after a successful add-to-cart, every line of the resulting cart
(response and stored copy alike) has quantity in [1,10], provided every
line already stored satisfied the invariant; when the product had no line
yet, the new line's quantity is `clampQty` of the request quantity, which
is exactly 10 for an incoming 99 and exactly 1 for an incoming quantity
at most 0. -/
theorem C3_add_to_cart_quantity_clamped (db : DB) (payload : AddToCartRequest)
    (p : ProductDoc)
    (hv : isValidObjectId payload.product_id = true)
    (hp : findProductByOid db payload.product_id = some p)
    (hinv : ∀ it ∈ (get_cart db payload.session_id).items,
      1 ≤ it.quantity ∧ it.quantity ≤ 10) :
    (add_to_cart db payload).1 =
      .ok { ok := true,
            cart := { get_cart db payload.session_id with
              items := addItem (get_cart db payload.session_id).items
                payload.product_id payload.quantity } } ∧
    (∀ it ∈ addItem (get_cart db payload.session_id).items
        payload.product_id payload.quantity, 1 ≤ it.quantity ∧ it.quantity ≤ 10) ∧
    (get_cart (add_to_cart db payload).2 payload.session_id).items =
      addItem (get_cart db payload.session_id).items
        payload.product_id payload.quantity ∧
    ((∀ it ∈ (get_cart db payload.session_id).items,
        it.product_id ≠ payload.product_id) →
      addItem (get_cart db payload.session_id).items
          payload.product_id payload.quantity =
        (get_cart db payload.session_id).items ++
          [⟨payload.product_id, clampQty payload.quantity⟩]) ∧
    (payload.quantity = 99 → clampQty payload.quantity = 10) ∧
    (payload.quantity ≤ 0 → clampQty payload.quantity = 1) := by
  have hclamp99 : payload.quantity = 99 → clampQty payload.quantity = 10 := by
    intro h; rw [h]; rfl
  have hclamp0 : payload.quantity ≤ 0 → clampQty payload.quantity = 1 := by
    intro h; unfold clampQty; omega
  cases hc : db.carts.find? (fun c => c.session_id == payload.session_id) with
  | some cart0 =>
    have hsid : cart0.session_id = payload.session_id := by
      simpa using List.find?_some hc
    have hgc : get_cart db payload.session_id = cart0 := by
      simp [get_cart, hc]
    rw [hgc] at hinv ⊢
    have hadd : add_to_cart db payload =
        (.ok { ok := true,
               cart := { cart0 with
                 items := addItem cart0.items payload.product_id payload.quantity } },
         { db with carts := replaceFirstCart db.carts payload.session_id ({ cart0 with items := addItem cart0.items payload.product_id payload.quantity }) }) := by
      simp [add_to_cart, hv, hp, hc]
    refine ⟨?_, addItem_bounds _ _ _ hinv, ?_, ?_, hclamp99, hclamp0⟩
    · rw [hadd]
    · rw [hadd]
      have hf := find?_replaceFirstCart db.carts payload.session_id
        ({ cart0 with items := addItem cart0.items payload.product_id payload.quantity })
        hsid (by rw [hc]; rfl)
      simp [get_cart, hf]
    · intro h
      exact addItem_of_not_present _ _ _ h
  | none =>
    have hgc : get_cart db payload.session_id =
        { oid := none, session_id := payload.session_id, items := [] } := by
      simp [get_cart, hc]
    rw [hgc] at hinv ⊢
    have hadd : add_to_cart db payload =
        (.ok { ok := true,
               cart := { oid := none, session_id := payload.session_id,
                         items := addItem [] payload.product_id payload.quantity } },
         { db with
           carts := db.carts ++
             [{ oid := some (hex24 db.nextId), session_id := payload.session_id,
                items := addItem [] payload.product_id payload.quantity }],
           nextId := db.nextId + 1 }) := by
      simp [add_to_cart, hv, hp, hc]
    refine ⟨?_, addItem_bounds _ _ _ hinv, ?_, ?_, hclamp99, hclamp0⟩
    · rw [hadd]
    · rw [hadd]
      have hf := find?_append_of_none
        [{ oid := some (hex24 db.nextId), session_id := payload.session_id,
           items := addItem [] payload.product_id payload.quantity }] hc
      simp [get_cart, hf]
    · intro _
      rfl

/-- C3 witness: on a store with one product and no cart, adding quantity
99 succeeds and the clamp yields 10. -/
theorem C3_add_to_cart_quantity_clamped_witness :
    (add_to_cart dbOneProduct { product_id := exOid, quantity := 99, session_id := "s" }).1 =
      .ok { ok := true,
            cart := { get_cart dbOneProduct "s" with
                      items := addItem (get_cart dbOneProduct "s").items exOid 99 } } ∧
    clampQty 99 = 10 := by
  have h := C3_add_to_cart_quantity_clamped dbOneProduct
    { product_id := exOid, quantity := 99, session_id := "s" } exProduct
    (by decide) (by decide) (by decide)
  exact ⟨h.1, h.2.2.2.2.1 rfl⟩

/-- C4: adding a product that already has a (unique) line in the session's
cart merges into that line — the resulting cart has exactly one line for
the product, with quantity the clamped sum of the existing and incoming
quantities, the number of lines is unchanged, and the merged cart is what
gets stored. -/
theorem C4_merge_existing_line (db : DB) (payload : AddToCartRequest) (p : ProductDoc)
    (cart0 : CartDoc) (l1 l2 : List CartItemDoc) (q0 : Int)
    (hv : isValidObjectId payload.product_id = true)
    (hp : findProductByOid db payload.product_id = some p)
    (hc : db.carts.find? (fun c => c.session_id == payload.session_id) = some cart0)
    (hitems : cart0.items = l1 ++ ⟨payload.product_id, q0⟩ :: l2)
    (h1 : ∀ it ∈ l1, it.product_id ≠ payload.product_id)
    (h2 : ∀ it ∈ l2, it.product_id ≠ payload.product_id) :
    (add_to_cart db payload).1 =
      .ok { ok := true,
            cart := { cart0 with
                      items := l1 ++ ⟨payload.product_id, clampQty (q0 + payload.quantity)⟩ :: l2 } } ∧
    (l1 ++ ⟨payload.product_id, clampQty (q0 + payload.quantity)⟩ :: l2).filter
        (fun it => it.product_id == payload.product_id) =
      [⟨payload.product_id, clampQty (q0 + payload.quantity)⟩] ∧
    (l1 ++ ⟨payload.product_id, clampQty (q0 + payload.quantity)⟩ :: l2).length =
      cart0.items.length ∧
    (get_cart (add_to_cart db payload).2 payload.session_id).items =
      l1 ++ ⟨payload.product_id, clampQty (q0 + payload.quantity)⟩ :: l2 := by
  have hsid : cart0.session_id = payload.session_id := by
    simpa using List.find?_some hc
  have hmerge : addItem cart0.items payload.product_id payload.quantity =
      l1 ++ ⟨payload.product_id, clampQty (q0 + payload.quantity)⟩ :: l2 := by
    rw [hitems]
    exact addItem_merge l1 l2 _ q0 _ h1
  have hadd : add_to_cart db payload =
      (.ok { ok := true,
             cart := { cart0 with
                       items := addItem cart0.items payload.product_id payload.quantity } },
       { db with carts := replaceFirstCart db.carts payload.session_id ({ cart0 with items := addItem cart0.items payload.product_id payload.quantity }) }) := by
    simp [add_to_cart, hv, hp, hc]
  refine ⟨?_, ?_, ?_, ?_⟩
  · rw [hadd, hmerge]
  · rw [List.filter_append]
    have hf1 : l1.filter (fun it => it.product_id == payload.product_id) = [] := by
      rw [List.filter_eq_nil_iff]
      intro a ha
      simpa using h1 a ha
    have hf2 : l2.filter (fun it => it.product_id == payload.product_id) = [] := by
      rw [List.filter_eq_nil_iff]
      intro a ha
      simpa using h2 a ha
    simp [hf1, hf2]
  · rw [hitems]
    simp
  · rw [hadd]
    have hf := find?_replaceFirstCart db.carts payload.session_id
      ({ cart0 with items := addItem cart0.items payload.product_id payload.quantity })
      hsid (by rw [hc]; rfl)
    rw [hmerge] at hf ⊢
    simp [get_cart, hf]

/-- C4 witness: quantities 3 then 4 on the same product merge into one
line of quantity 7. -/
theorem C4_merge_existing_line_witness :
    (add_to_cart dbCart { product_id := exOid, quantity := 4, session_id := "s" }).1 =
      .ok { ok := true,
            cart := { exCart with
                      items := [] ++ ⟨exOid, clampQty (3 + 4)⟩ :: [⟨exOidMissing, 2⟩] } } ∧
    clampQty (3 + 4) = 7 := by
  have h := C4_merge_existing_line dbCart
    { product_id := exOid, quantity := 4, session_id := "s" } exProduct exCart
    [] [⟨exOidMissing, 2⟩] 3
    (by decide) (by decide) (by decide) (by decide) (by decide) (by decide)
  exact ⟨h.1, by decide⟩

/-- C1: when the session's (unique) cart keeps at least one line whose
product resolves, checkout succeeds: unresolvable lines are dropped (the
order items are the `filterMap` of line resolution), each retained item
carries the resolved product's current price and the line's quantity, the
total is the rounded sum of price times quantity over retained lines, the
order has status "placed", and the cart is deleted so a subsequent
get-cart yields the synthetic empty cart. -/
theorem C1_checkout_success (db : DB) (sid : String) (c : CartDoc)
    (hc : db.carts.filter (fun x => x.session_id == sid) = [c])
    (hres : c.items.filterMap (orderItemOf db) ≠ []) :
    checkout db sid =
      (.ok (round2 (((c.items.filterMap (orderItemOf db)).map
          (fun i => i.price * (i.quantity : ℚ))).sum)),
       { db with
         orders := db.orders ++
           [{ oid := hex24 db.nextId, session_id := sid,
              items := c.items.filterMap (orderItemOf db),
              total := round2 (((c.items.filterMap (orderItemOf db)).map
                (fun i => i.price * (i.quantity : ℚ))).sum),
              status := "placed", created_at := db.nextId }],
         carts := deleteOneCart db.carts sid,
         nextId := db.nextId + 1 }) ∧
    (∀ oi ∈ c.items.filterMap (orderItemOf db), ∃ it ∈ c.items, ∃ p : ProductDoc,
      resolveProduct db it.product_id = some p ∧
      oi.product_id = p.oid ∧ oi.quantity = it.quantity ∧ oi.price = p.price) ∧
    get_cart (checkout db sid).2 sid = { oid := none, session_id := sid, items := [] } := by
  have hfind := find?_of_filter_eq_singleton hc
  have hne1 : (c.items.filterMap (orderItemOf db)).isEmpty = false := by
    rw [List.isEmpty_eq_false]
    exact hres
  have hne0 : c.items.isEmpty = false := by
    rw [List.isEmpty_eq_false]
    intro h0
    rw [h0] at hres
    simp at hres
  have hmain : checkout db sid =
      (.ok (round2 (((c.items.filterMap (orderItemOf db)).map
          (fun i => i.price * (i.quantity : ℚ))).sum)),
       { db with
         orders := db.orders ++
           [{ oid := hex24 db.nextId, session_id := sid,
              items := c.items.filterMap (orderItemOf db),
              total := round2 (((c.items.filterMap (orderItemOf db)).map
                (fun i => i.price * (i.quantity : ℚ))).sum),
              status := "placed", created_at := db.nextId }],
         carts := deleteOneCart db.carts sid,
         nextId := db.nextId + 1 }) := by
    simp only [checkout, hfind, hne0, Bool.false_eq_true, if_false,
      checkoutLoop_eq, hne1]
  refine ⟨hmain, ?_, ?_⟩
  · intro oi hoi
    obtain ⟨it, hit, hsome⟩ := List.mem_filterMap.mp hoi
    rw [orderItemOf, Option.map_eq_some'] at hsome
    obtain ⟨p, hp2, hoi2⟩ := hsome
    exact ⟨it, hit, p, hp2, by rw [← hoi2], by rw [← hoi2], by rw [← hoi2]⟩
  · rw [hmain]
    have hgone := find?_eraseP_of_filter_eq_singleton hc
    simp [get_cart, deleteOneCart, hgone]

/-- C1 witness: checkout of the concrete cart with one resolvable and one
stale line succeeds and deletes the cart. -/
theorem C1_checkout_success_witness :
    (checkout dbCart "s").1 =
      .ok (round2 (((exCart.items.filterMap (orderItemOf dbCart)).map
        (fun i => i.price * (i.quantity : ℚ))).sum)) ∧
    get_cart (checkout dbCart "s").2 "s" =
      { oid := none, session_id := "s", items := [] } := by
  have h := C1_checkout_success dbCart "s" exCart (by decide) (by decide)
  exact ⟨by rw [h.1], h.2.2⟩

/-- C2: checkout fails exactly in two cases — with "Cart is empty" iff the
session has no cart or its cart has no items, and with "No valid items in
cart" iff the cart is non-empty but no line's product resolves; every
checkout error is one of these two 400 client errors and leaves the store
unchanged (no order created, no cart deleted). -/
theorem C2_checkout_error_cases (db : DB) (sid : String) :
    ((checkout db sid).1 = .error ⟨400, "Cart is empty"⟩ ↔
      (db.carts.find? (fun x => x.session_id == sid) = none ∨
       ∃ c, db.carts.find? (fun x => x.session_id == sid) = some c ∧ c.items = [])) ∧
    ((checkout db sid).1 = .error ⟨400, "No valid items in cart"⟩ ↔
      (∃ c, db.carts.find? (fun x => x.session_id == sid) = some c ∧ c.items ≠ [] ∧
        c.items.filterMap (orderItemOf db) = [])) ∧
    (∀ e : Err, (checkout db sid).1 = .error e →
      (checkout db sid).2 = db ∧
      (e = ⟨400, "Cart is empty"⟩ ∨ e = ⟨400, "No valid items in cart"⟩)) := by
  cases hfind : db.carts.find? (fun x => x.session_id == sid) with
  | none =>
    have hck : checkout db sid = (.error ⟨400, "Cart is empty"⟩, db) := by
      simp [checkout, hfind]
    rw [hck]
    refine ⟨?_, ?_, ?_⟩
    · exact ⟨fun _ => Or.inl rfl, fun _ => rfl⟩
    · constructor
      · intro he
        simp at he
      · rintro ⟨c', hc', -, -⟩
        simp at hc'
    · intro e he
      have h400 : Err.mk 400 "Cart is empty" = e := by simpa using he
      exact ⟨rfl, Or.inl h400.symm⟩
  | some c =>
    by_cases hemp : c.items = []
    · have hck : checkout db sid = (.error ⟨400, "Cart is empty"⟩, db) := by
        simp [checkout, hfind, hemp]
      rw [hck]
      refine ⟨?_, ?_, ?_⟩
      · exact ⟨fun _ => Or.inr ⟨c, rfl, hemp⟩, fun _ => rfl⟩
      · constructor
        · intro he
          simp at he
        · rintro ⟨c', hc', hne', -⟩
          obtain rfl : c = c' := by simpa using hc'
          exact absurd hemp hne'
      · intro e he
        have h400 : Err.mk 400 "Cart is empty" = e := by simpa using he
        exact ⟨rfl, Or.inl h400.symm⟩
    · have hempb : c.items.isEmpty = false := by
        rw [List.isEmpty_eq_false]
        exact hemp
      by_cases hfm : c.items.filterMap (orderItemOf db) = []
      · have hck : checkout db sid = (.error ⟨400, "No valid items in cart"⟩, db) := by
          simp [checkout, hfind, hempb, checkoutLoop_eq, hfm]
        rw [hck]
        refine ⟨?_, ?_, ?_⟩
        · constructor
          · intro he
            simp at he
          · rintro (h | ⟨c', hc', hemp'⟩)
            · simp at h
            · obtain rfl : c = c' := by simpa using hc'
              exact absurd hemp' hemp
        · exact ⟨fun _ => ⟨c, rfl, hemp, hfm⟩, fun _ => rfl⟩
        · intro e he
          have h400 : Err.mk 400 "No valid items in cart" = e := by simpa using he
          exact ⟨rfl, Or.inr h400.symm⟩
      · have hfmb : (c.items.filterMap (orderItemOf db)).isEmpty = false := by
          rw [List.isEmpty_eq_false]
          exact hfm
        have hok : (checkout db sid).1 =
            .ok (round2 (((c.items.filterMap (orderItemOf db)).map
              (fun i => i.price * (i.quantity : ℚ))).sum)) := by
          simp [checkout, hfind, hempb, checkoutLoop_eq, hfmb]
        refine ⟨?_, ?_, ?_⟩
        · rw [hok]
          constructor
          · intro he
            simp at he
          · rintro (h | ⟨c', hc', hemp'⟩)
            · simp at h
            · obtain rfl : c = c' := by simpa using hc'
              exact absurd hemp' hemp
        · rw [hok]
          constructor
          · intro he
            simp at he
          · rintro ⟨c', hc', -, hfm'⟩
            obtain rfl : c = c' := by simpa using hc'
            exact absurd hfm' hfm
        · intro e he
          rw [hok] at he
          simp at he

/-- C2 witness: checkout with no cart fails with "Cart is empty" leaving
the store unchanged, and checkout of an all-stale cart fails with
"No valid items in cart". -/
theorem C2_checkout_error_cases_witness :
    (checkout dbOneProduct "s").1 = .error ⟨400, "Cart is empty"⟩ ∧
    (checkout dbOneProduct "s").2 = dbOneProduct ∧
    (checkout dbStaleCart "s").1 = .error ⟨400, "No valid items in cart"⟩ := by
  have h := C2_checkout_error_cases dbOneProduct "s"
  have he := h.1.mpr (Or.inl (by decide))
  have h' := C2_checkout_error_cases dbStaleCart "s"
  have he' := h'.2.1.mpr ⟨exCart, by decide, by decide, by decide⟩
  exact ⟨he, (h.2.2 _ he).1, he'⟩

/-- C7: for an existing product (found by storage id), get-product
overwrites the returned rating with the rounded arithmetic mean of its
reviews' ratings and attaches reviews_count when reviews exist; with no
reviews it returns the stored rating and no reviews_count; in either case
the store is unchanged. -/
theorem C7_get_product_rating_aggregation (db : DB) (pid : String) (p : ProductDoc)
    (hv : isValidObjectId pid = true)
    (hp : findProductByOid db pid = some p) :
    (db.reviews.filter (fun r => r.product_id == p.oid) ≠ [] →
      (get_product db pid).1 = .ok
        { id := p.oid, title := p.title, description := p.description,
          price := p.price, category := p.category, image_url := p.image_url,
          rating := round2 (((db.reviews.filter (fun r => r.product_id == p.oid)).map
            (fun r => r.rating)).sum /
            ((db.reviews.filter (fun r => r.product_id == p.oid)).length : ℚ)),
          in_stock := p.in_stock,
          reviews_count := some (db.reviews.filter (fun r => r.product_id == p.oid)).length }) ∧
    (db.reviews.filter (fun r => r.product_id == p.oid) = [] →
      (get_product db pid).1 = .ok
        { id := p.oid, title := p.title, description := p.description,
          price := p.price, category := p.category, image_url := p.image_url,
          rating := p.rating, in_stock := p.in_stock, reviews_count := none }) ∧
    (get_product db pid).2 = db := by
  refine ⟨?_, ?_, ?_⟩
  · intro hne
    have hcount : (db.reviews.filter (fun r => r.product_id == p.oid)).length ≠ 0 := by
      simpa [List.length_eq_zero] using hne
    simp [get_product, hv, hp, hcount]
  · intro hnil
    simp [get_product, hv, hp, hnil]
  · by_cases hnil : db.reviews.filter (fun r => r.product_id == p.oid) = []
    · simp [get_product, hv, hp, hnil]
    · have hcount : (db.reviews.filter (fun r => r.product_id == p.oid)).length ≠ 0 := by
        simpa [List.length_eq_zero] using hnil
      simp [get_product, hv, hp, hcount]

/-- C7 witness: the product with reviews rated 5 and 4 reports the rounded
mean and a count of 2, and the store is unchanged. -/
theorem C7_get_product_rating_aggregation_witness :
    (get_product dbReviews exOid).1 = .ok
      { id := exProduct.oid, title := exProduct.title,
        description := exProduct.description, price := exProduct.price,
        category := exProduct.category, image_url := exProduct.image_url,
        rating := round2 (((dbReviews.reviews.filter
          (fun r => r.product_id == exProduct.oid)).map (fun r => r.rating)).sum /
          ((dbReviews.reviews.filter (fun r => r.product_id == exProduct.oid)).length : ℚ)),
        in_stock := exProduct.in_stock,
        reviews_count := some (dbReviews.reviews.filter
          (fun r => r.product_id == exProduct.oid)).length } ∧
    (get_product dbReviews exOid).2 = dbReviews := by
  have h := C7_get_product_rating_aggregation dbReviews exOid exProduct
    (by decide) (by decide)
  exact ⟨h.1 (by decide), h.2.2⟩

/-- C8: get-product never produces anything but the 404 "Product not
found" client error on failure — both for a malformed identifier matching
no literal id field and for a well-formed identifier matching no product
— and on success the document was selected by storage id when the
identifier is well formed, by the literal id field otherwise. -/
theorem C8_get_product_not_found (db : DB) (pid : String) :
    (isValidObjectId pid = false →
      db.products.find? (fun q => q.idField == some pid) = none →
      (get_product db pid).1 = .error ⟨404, "Product not found"⟩) ∧
    (isValidObjectId pid = true → findProductByOid db pid = none →
      (get_product db pid).1 = .error ⟨404, "Product not found"⟩) ∧
    (∀ e : Err, (get_product db pid).1 = .error e → e = ⟨404, "Product not found"⟩) ∧
    (∀ r : ProductResp, (get_product db pid).1 = .ok r →
      ∃ p : ProductDoc, r.id = p.oid ∧
        (if isValidObjectId pid then findProductByOid db pid = some p
         else db.products.find? (fun q => q.idField == some pid) = some p)) := by
  cases hv : isValidObjectId pid with
  | false =>
    cases hf : db.products.find? (fun q => q.idField == some pid) with
    | none =>
      have hg : (get_product db pid).1 = .error ⟨404, "Product not found"⟩ := by
        simp [get_product, hv, hf]
      refine ⟨?_, ?_, ?_, ?_⟩
      · intro _ _
        exact hg
      · intro ht _
        simp at ht
      · intro e he
        rw [hg] at he
        simpa using he.symm
      · intro r hr
        rw [hg] at hr
        simp at hr
    | some p =>
      have hcases : ∀ r : ProductResp, (get_product db pid).1 = .ok r → r.id = p.oid := by
        intro r hr
        by_cases hnil : db.reviews.filter (fun q => q.product_id == p.oid) = []
        · have hg : (get_product db pid).1 = .ok
              { id := p.oid, title := p.title, description := p.description,
                price := p.price, category := p.category, image_url := p.image_url,
                rating := p.rating, in_stock := p.in_stock, reviews_count := none } := by
            simp [get_product, hv, hf, hnil]
          rw [hg] at hr
          rw [← Except.ok.inj hr]
        · have hcount : (db.reviews.filter (fun q => q.product_id == p.oid)).length ≠ 0 := by
            simpa [List.length_eq_zero] using hnil
          have hg : (get_product db pid).1 = .ok
              { id := p.oid, title := p.title, description := p.description,
                price := p.price, category := p.category, image_url := p.image_url,
                rating := round2 (((db.reviews.filter (fun q => q.product_id == p.oid)).map
                  (fun q => q.rating)).sum /
                  ((db.reviews.filter (fun q => q.product_id == p.oid)).length : ℚ)),
                in_stock := p.in_stock,
                reviews_count := some (db.reviews.filter
                  (fun q => q.product_id == p.oid)).length } := by
            simp [get_product, hv, hf, hcount]
          rw [hg] at hr
          rw [← Except.ok.inj hr]
      have hok : ∀ e : Err, (get_product db pid).1 ≠ .error e := by
        intro e
        by_cases hnil : db.reviews.filter (fun q => q.product_id == p.oid) = []
        · simp [get_product, hv, hf, hnil]
        · have hcount : (db.reviews.filter (fun q => q.product_id == p.oid)).length ≠ 0 := by
            simpa [List.length_eq_zero] using hnil
          simp [get_product, hv, hf, hcount]
      refine ⟨?_, ?_, ?_, ?_⟩
      · intro _ hnone
        simp at hnone
      · intro ht _
        simp at ht
      · intro e he
        exact absurd he (hok e)
      · intro r hr
        exact ⟨p, hcases r hr, by simp⟩
  | true =>
    cases hf : findProductByOid db pid with
    | none =>
      have hg : (get_product db pid).1 = .error ⟨404, "Product not found"⟩ := by
        simp [get_product, hv, hf]
      refine ⟨?_, ?_, ?_, ?_⟩
      · intro ht _
        simp at ht
      · intro _ _
        exact hg
      · intro e he
        rw [hg] at he
        simpa using he.symm
      · intro r hr
        rw [hg] at hr
        simp at hr
    | some p =>
      have hcases : ∀ r : ProductResp, (get_product db pid).1 = .ok r → r.id = p.oid := by
        intro r hr
        by_cases hnil : db.reviews.filter (fun q => q.product_id == p.oid) = []
        · have hg : (get_product db pid).1 = .ok
              { id := p.oid, title := p.title, description := p.description,
                price := p.price, category := p.category, image_url := p.image_url,
                rating := p.rating, in_stock := p.in_stock, reviews_count := none } := by
            simp [get_product, hv, hf, hnil]
          rw [hg] at hr
          rw [← Except.ok.inj hr]
        · have hcount : (db.reviews.filter (fun q => q.product_id == p.oid)).length ≠ 0 := by
            simpa [List.length_eq_zero] using hnil
          have hg : (get_product db pid).1 = .ok
              { id := p.oid, title := p.title, description := p.description,
                price := p.price, category := p.category, image_url := p.image_url,
                rating := round2 (((db.reviews.filter (fun q => q.product_id == p.oid)).map
                  (fun q => q.rating)).sum /
                  ((db.reviews.filter (fun q => q.product_id == p.oid)).length : ℚ)),
                in_stock := p.in_stock,
                reviews_count := some (db.reviews.filter
                  (fun q => q.product_id == p.oid)).length } := by
            simp [get_product, hv, hf, hcount]
          rw [hg] at hr
          rw [← Except.ok.inj hr]
      have hok : ∀ e : Err, (get_product db pid).1 ≠ .error e := by
        intro e
        by_cases hnil : db.reviews.filter (fun q => q.product_id == p.oid) = []
        · simp [get_product, hv, hf, hnil]
        · have hcount : (db.reviews.filter (fun q => q.product_id == p.oid)).length ≠ 0 := by
            simpa [List.length_eq_zero] using hnil
          simp [get_product, hv, hf, hcount]
      refine ⟨?_, ?_, ?_, ?_⟩
      · intro ht _
        simp at ht
      · intro _ hnone
        simp at hnone
      · intro e he
        exact absurd he (hok e)
      · intro r hr
        exact ⟨p, hcases r hr, by simp⟩

/-- C8 witness: a malformed identifier and a well-formed but unknown
identifier both yield the 404 client error. -/
theorem C8_get_product_not_found_witness :
    (get_product dbOneProduct "zz").1 = .error ⟨404, "Product not found"⟩ ∧
    (get_product dbOneProduct exOidMissing).1 = .error ⟨404, "Product not found"⟩ :=
  ⟨(C8_get_product_not_found dbOneProduct "zz").1 (by decide) (by decide),
   (C8_get_product_not_found dbOneProduct exOidMissing).2.1 (by decide) (by decide)⟩

/-- C9: list-reviews returns exactly the reviews stored for the product —
a permutation of their normalized renderings — ordered by creation stamp
descending (most recent first), each carrying the storage identifier as
the string id field; and every review created by submit-review is stored
with a creation stamp drawn from the store counter. -/
theorem C9_reviews_order (db : DB) (pid : String) :
    (get_reviews db pid).Perm
      ((db.reviews.filter (fun r => r.product_id == pid)).map renderReview) ∧
    List.Pairwise (fun a b => b.created_at ≤ a.created_at) (get_reviews db pid) ∧
    (∀ o ∈ get_reviews db pid, ∃ r ∈ db.reviews,
      r.product_id = pid ∧ o = renderReview r ∧ o.id = r.oid) ∧
    (∀ payload : CreateReview, (post_review db payload).1 = .ok () →
      (post_review db payload).2.reviews = db.reviews ++
        [{ oid := hex24 db.nextId, product_id := payload.product_id,
           user_name := payload.user_name, rating := payload.rating,
           comment := payload.comment, created_at := db.nextId }]) := by
  refine ⟨?_, ?_, ?_, ?_⟩
  · exact (List.perm_insertionSort revDesc
      (db.reviews.filter (fun r => r.product_id == pid))).map renderReview
  · have hs := List.sorted_insertionSort revDesc
      (db.reviews.filter (fun r => r.product_id == pid))
    exact List.Pairwise.map renderReview (fun a b h => h) hs
  · intro o ho
    simp only [get_reviews] at ho
    obtain ⟨r, hr, rfl⟩ := List.mem_map.mp ho
    have hr2 : r ∈ db.reviews.filter (fun q => q.product_id == pid) :=
      (List.mem_insertionSort revDesc).mp hr
    obtain ⟨hmem, hpid⟩ := List.mem_filter.mp hr2
    exact ⟨r, hmem, by simpa using hpid, rfl, rfl⟩
  · intro payload hok2
    by_cases hcond : isValidObjectId payload.product_id = true ∧
        (findProductByOid db payload.product_id).isSome = true
    · simp [post_review, hcond]
    · exfalso
      simp [post_review, hcond] at hok2

/-- C9 witness: on the two-review store, get-reviews is a permutation of
the rendered stored reviews, sorted by creation stamp descending, and
posting a third review stores it with the current counter as creation
stamp. -/
theorem C9_reviews_order_witness :
    (get_reviews dbReviews exOid).Perm
      ((dbReviews.reviews.filter (fun r => r.product_id == exOid)).map renderReview) ∧
    List.Pairwise (fun a b => b.created_at ≤ a.created_at) (get_reviews dbReviews exOid) ∧
    (post_review dbReviews { product_id := exOid, user_name := "c", rating := 3 }).2.reviews =
      dbReviews.reviews ++
        [{ oid := hex24 3, product_id := exOid, user_name := "c",
           rating := 3, comment := none, created_at := 3 }] := by
  have h := C9_reviews_order dbReviews exOid
  refine ⟨h.1, h.2.1, ?_⟩
  have hok : (post_review dbReviews
      { product_id := exOid, user_name := "c", rating := 3 }).1 = .ok () := by
    have hcond : isValidObjectId exOid = true ∧
        (findProductByOid dbReviews exOid).isSome = true := by decide
    simp [post_review, hcond]
  exact h.2.2.2 _ hok

/-- C10: get-cart returns the stored cart document without identifier
normalization — a stored `_id` is exposed as-is and no string `id` field
is added; the synthetic empty cart for an absent session carries neither
key; the cart embedded in a successful add-to-cart response for a
pre-existing cart keeps the stored `_id` value; by contrast the
order-history read passes every document through `to_str_id`, exposing a
string `id` and no `_id`. -/
theorem C10_cart_identifier_not_normalized (db : DB) (sid : String) :
    (∀ c, db.carts.find? (fun x => x.session_id == sid) = some c →
      (get_cart_doc db sid).lookup "_id" = c.oid.map Val.oidV ∧
      (get_cart_doc db sid).lookup "id" = none) ∧
    (db.carts.find? (fun x => x.session_id == sid) = none →
      get_cart_doc db sid = [("session_id", Val.strV sid), ("items", Val.itemsV [])] ∧
      (get_cart_doc db sid).lookup "_id" = none ∧
      (get_cart_doc db sid).lookup "id" = none) ∧
    (∀ payload : AddToCartRequest, ∀ resp : AddResp, ∀ c : CartDoc,
      payload.session_id = sid →
      db.carts.find? (fun x => x.session_id == sid) = some c →
      (add_to_cart db payload).1 = .ok resp →
      resp.cart.oid = c.oid) ∧
    ((∀ o ∈ db.orders, o.oid ≠ "") →
      ∀ d ∈ get_orders_docs db sid,
        d.lookup "_id" = none ∧ ∃ s, d.lookup "id" = some (Val.strV s)) := by
  refine ⟨?_, ?_, ?_, ?_⟩
  · intro c hc
    obtain ⟨coid, csid, citems⟩ := c
    have hgc : get_cart_doc db sid = renderCart ⟨coid, csid, citems⟩ := by
      simp [get_cart_doc, get_cart, hc]
    rw [hgc]
    cases coid with
    | none => simp [renderCart, List.lookup]
    | some i => simp [renderCart, List.lookup]
  · intro hc
    have hgc : get_cart_doc db sid =
        [("session_id", Val.strV sid), ("items", Val.itemsV [])] := by
      simp [get_cart_doc, get_cart, hc, renderCart]
    rw [hgc]
    exact ⟨rfl, rfl, rfl⟩
  · intro payload resp c hsid hc hok
    rw [← hsid] at hc
    by_cases hv : isValidObjectId payload.product_id
    · cases hp : findProductByOid db payload.product_id with
      | none => simp [add_to_cart, hv, hp] at hok
      | some q =>
        have hadd : (add_to_cart db payload).1 = .ok
            { ok := true,
              cart := { c with
                items := addItem c.items payload.product_id payload.quantity } } := by
          simp [add_to_cart, hv, hp, hc]
        rw [hadd] at hok
        rw [← Except.ok.inj hok]
    · simp [add_to_cart, hv] at hok
  · intro horder d hd
    simp only [get_orders_docs] at hd
    obtain ⟨o, ho, rfl⟩ := List.mem_map.mp hd
    have ho2 : o ∈ db.orders.filter (fun x => x.session_id == sid) :=
      (List.mem_insertionSort ordDesc).mp ho
    have hoid : o.oid ≠ "" := horder o (List.mem_filter.mp ho2).1
    have hemp : o.oid.isEmpty = false := by
      by_contra hne
      have hx : o.oid.isEmpty = true := by simpa using hne
      exact hoid ((String.isEmpty_iff o.oid).mp hx)
    have hdoc : to_str_id (renderOrder o) =
        ((renderOrder o).filter (fun kv => kv.1 ≠ "_id" ∧ kv.1 ≠ "id")) ++
          [("id", Val.strV o.oid)] := by
      simp [to_str_id, renderOrder, valTruthy, valToStr, hemp, List.lookup]
    rw [hdoc]
    constructor
    · simp [renderOrder, List.lookup]
    · exact ⟨o.oid, by simp [renderOrder, List.lookup]⟩

/-- C10 witness: the stored cart's document keeps its `_id` and gains no
`id`; the synthetic cart has neither; an order document rendered by the
order-history read has `id` and no `_id`. -/
theorem C10_cart_identifier_not_normalized_witness :
    (get_cart_doc dbCart "s").lookup "_id" = exCart.oid.map Val.oidV ∧
    (get_cart_doc dbCart "s").lookup "id" = none ∧
    get_cart_doc dbOneProduct "s" =
      [("session_id", Val.strV "s"), ("items", Val.itemsV [])] ∧
    (to_str_id (renderOrder exOrder)).lookup "_id" = none ∧
    (∃ s, (to_str_id (renderOrder exOrder)).lookup "id" = some (Val.strV s)) := by
  have h := C10_cart_identifier_not_normalized dbCart "s"
  have h1 := h.1 exCart (by decide)
  have h' := C10_cart_identifier_not_normalized dbOneProduct "s"
  have h2 := (h'.2.1 (by decide)).1
  have h'' := C10_cart_identifier_not_normalized dbOrder "s"
  have hmem : to_str_id (renderOrder exOrder) ∈ get_orders_docs dbOrder "s" :=
    List.mem_singleton.mpr rfl
  have h3 := h''.2.2.2 (by decide) (to_str_id (renderOrder exOrder)) hmem
  exact ⟨h1.1, h1.2, h2, h3.1, h3.2⟩
